import Mathlib

/-!
Shallow embedding of the core of `blocknative-rs`: the WebSocket connection
actor (`src/ws/ws.rs`), its command/registry types, and the request/response
envelope types (`src/ws/models.rs`, `src/models.rs`).

Modelling conventions:
* JSON text produced or consumed through `serde_json` is represented at the
  level of JSON values (`Json` below); `serde_json::to_string` /
  `serde_json::from_str` factor through this value type, so structural
  round-trip properties are stated on it.
* `Utc::now().to_string()` (the ambient clock read in `Request::new`) is
  modelled by an explicit `now : String` argument.
* Machine integers (`u64`, `i64`) are modelled as `Nat` / `Int`; none of the
  operations here perform arithmetic, so overflow is not reachable.
-/

/-- JSON values, the model of `serde_json::Value`. Numbers are restricted to
integers: every JSON number appearing in the envelopes under study is an
integer. -/
inductive Json where
  | null : Json
  | bool (b : Bool) : Json
  | num (n : Int) : Json
  | str (s : String) : Json
  | arr (items : List Json) : Json
  | obj (fields : List (String × Json)) : Json

namespace Json

/-- Looks up a key in a JSON object (first occurrence); `none` on non-objects
or absent keys.  Models field access during `serde` deserialization. -/
def lookup (key : String) : Json → Option Json
  | .obj fields => go fields
  | _ => none
where
  go : List (String × Json) → Option Json
    | [] => none
    | (k, v) :: rest => if k = key then some v else go rest

/-- Extracts a string value. -/
def getStr : Json → Option String
  | .str s => some s
  | _ => none

/-- Extracts an integer value. -/
def getNum : Json → Option Int
  | .num n => some n
  | _ => none

end Json

mutual

/-- Decidable equality for `Json` (the derive handler does not support the
nested occurrence of `List`). -/
def Json.decEq : (a b : Json) → Decidable (a = b)
  | .null, .null => isTrue rfl
  | .null, .bool _ | .null, .num _ | .null, .str _ | .null, .arr _
  | .null, .obj _ => isFalse (fun h => nomatch h)
  | .bool _, .null | .bool _, .num _ | .bool _, .str _ | .bool _, .arr _
  | .bool _, .obj _ => isFalse (fun h => nomatch h)
  | .num _, .null | .num _, .bool _ | .num _, .str _ | .num _, .arr _
  | .num _, .obj _ => isFalse (fun h => nomatch h)
  | .str _, .null | .str _, .bool _ | .str _, .num _ | .str _, .arr _
  | .str _, .obj _ => isFalse (fun h => nomatch h)
  | .arr _, .null | .arr _, .bool _ | .arr _, .num _ | .arr _, .str _
  | .arr _, .obj _ => isFalse (fun h => nomatch h)
  | .obj _, .null | .obj _, .bool _ | .obj _, .num _ | .obj _, .str _
  | .obj _, .arr _ => isFalse (fun h => nomatch h)
  | .bool a, .bool b =>
    if h : a = b then isTrue (by simp [h]) else isFalse (by simp [h])
  | .num a, .num b =>
    if h : a = b then isTrue (by simp [h]) else isFalse (by simp [h])
  | .str a, .str b =>
    if h : a = b then isTrue (by simp [h]) else isFalse (by simp [h])
  | .arr a, .arr b =>
    match Json.decEqList a b with
    | isTrue h => isTrue (by simp [h])
    | isFalse h => isFalse (by simp [h])
  | .obj a, .obj b =>
    match Json.decEqObj a b with
    | isTrue h => isTrue (by simp [h])
    | isFalse h => isFalse (by simp [h])

/-- Decidable equality for lists of `Json` values. -/
def Json.decEqList : (a b : List Json) → Decidable (a = b)
  | [], [] => isTrue rfl
  | [], _ :: _ => isFalse (fun h => nomatch h)
  | _ :: _, [] => isFalse (fun h => nomatch h)
  | x :: xs, y :: ys =>
    match Json.decEq x y, Json.decEqList xs ys with
    | isTrue h1, isTrue h2 => isTrue (by simp [h1, h2])
    | isFalse h1, _ => isFalse (by simp [h1])
    | isTrue _, isFalse h2 => isFalse (by simp [h2])

/-- Decidable equality for JSON object field lists. -/
def Json.decEqObj : (a b : List (String × Json)) → Decidable (a = b)
  | [], [] => isTrue rfl
  | [], _ :: _ => isFalse (fun h => nomatch h)
  | _ :: _, [] => isFalse (fun h => nomatch h)
  | (k1, v1) :: xs, (k2, v2) :: ys =>
    if hk : k1 = k2 then
      match Json.decEq v1 v2, Json.decEqObj xs ys with
      | isTrue h1, isTrue h2 => isTrue (by simp [hk, h1, h2])
      | isFalse h1, _ => isFalse (by simp [h1])
      | isTrue _, isFalse h2 => isFalse (by simp [h2])
    else isFalse (by simp [hk])

end

instance : DecidableEq Json := Json.decEq

/-! ## `src/models.rs` -/

/-- Blockchain system identifier (`src/models.rs`, `enum System`),
serialized with `rename_all = "lowercase"`. -/
inductive System where
  | ethereum
  | bitcoin
  | other (s : String)
deriving DecidableEq, Repr

/-- Network identifier (`src/models.rs`, `enum Network`), serialized with
`rename_all = "lowercase"` plus explicit renames for BSC and Polygon. -/
inductive Network where
  | main
  | ropsten
  | rinkeby
  | goerli
  | kovan
  | xDai
  | bsc
  | polygon
deriving DecidableEq, Repr

/-- Blockchain scope (`src/models.rs`, `struct Blockchain`). -/
structure Blockchain where
  system : System
  network : Network
deriving DecidableEq, Repr

def System.toJson : System → Json
  | .ethereum => .str "ethereum"
  | .bitcoin => .str "bitcoin"
  | .other s => .obj [("other", .str s)]

def System.fromJson : Json → Option System
  | .str "ethereum" => some .ethereum
  | .str "bitcoin" => some .bitcoin
  | .obj [("other", .str s)] => some (.other s)
  | _ => none

def Network.toJson : Network → Json
  | .main => .str "main"
  | .ropsten => .str "ropsten"
  | .rinkeby => .str "rinkeby"
  | .goerli => .str "goerli"
  | .kovan => .str "kovan"
  | .xDai => .str "xdai"
  | .bsc => .str "bsc-main"
  | .polygon => .str "matic-main"

def Network.fromJson : Json → Option Network
  | .str "main" => some .main
  | .str "ropsten" => some .ropsten
  | .str "rinkeby" => some .rinkeby
  | .str "goerli" => some .goerli
  | .str "kovan" => some .kovan
  | .str "xdai" => some .xDai
  | .str "bsc-main" => some .bsc
  | .str "matic-main" => some .polygon
  | _ => none

def Blockchain.toJson (b : Blockchain) : Json :=
  .obj [("system", b.system.toJson), ("network", b.network.toJson)]

def Blockchain.fromJson (j : Json) : Option Blockchain := do
  let sys ← System.fromJson (← j.lookup "system")
  let net ← Network.fromJson (← j.lookup "network")
  pure ⟨sys, net⟩

/-! ## `src/ws/models.rs` -/

/-- Transaction hash wrapper (`struct TxDescriptor`). -/
structure TxDescriptor where
  hash : String
deriving DecidableEq, Repr

/-- Payload for transaction (un)subscription requests
(`struct TransactionSubscribe`). -/
structure TransactionSubscribe where
  transaction : TxDescriptor
deriving DecidableEq, Repr

/-- Constructor `TransactionSubscribe::new`. -/
def TransactionSubscribe.new (hash : String) : TransactionSubscribe :=
  { transaction := { hash } }

/-- Serialization of `TransactionSubscribe` as the field list it contributes
when used as the flattened `params` of a `Request`. -/
def TransactionSubscribe.toJsonFields (t : TransactionSubscribe) :
    List (String × Json) :=
  [("transaction", .obj [("hash", .str t.transaction.hash)])]

/-- A JSON-RPC 2.0 error (`struct JsonRpcError`). -/
structure JsonRpcError where
  code : Int
  message : String
  data : Option Json
deriving DecidableEq

/-- The request envelope (`struct Request<'a, T>`), generic over the flattened
parameter payload `T`.  Field names keep the Rust names; on the wire they are
`camelCase` (`timeStamp`, `dappId`, `categoryCode`, `eventCode`). -/
structure Request (T : Type) where
  timestamp : String
  dapp_id : String
  blockchain : Blockchain
  version : String
  category_code : String
  event_code : String
  params : T
deriving DecidableEq

/-- Constructor `Request::new`.  The source sets
`timestamp: Utc::now().to_string()`; the ambient clock read is modelled by
the explicit `now` argument.  `version` is the literal `"2"`. -/
def Request.new {T : Type} (now : String) (dapp_id : String)
    (blockchain : Blockchain) (method : String) (event_code : String)
    (params : T) : Request T :=
  { timestamp := now
    dapp_id
    blockchain
    version := "2"
    category_code := method
    event_code
    params }

/-- Serialization of a `Request` to a JSON object: the six named fields in
declaration order under their `camelCase` wire names, then the flattened
`params` fields appended (serde `#[serde(flatten)]`). -/
def Request.toJson {T : Type} (paramsFields : T → List (String × Json))
    (r : Request T) : Json :=
  .obj ([("timeStamp", .str r.timestamp),
         ("dappId", .str r.dapp_id),
         ("blockchain", r.blockchain.toJson),
         ("version", .str r.version),
         ("categoryCode", .str r.category_code),
         ("eventCode", .str r.event_code)]
        ++ paramsFields r.params)

/-- Deserialization of a `Request` from a JSON object.  The flattened
`params` payload is deserialized from the same object (serde hands the
leftover keys to the flattened field; looking keys up in the full object is
observationally the same because the payload keys are disjoint from the six
envelope keys). -/
def Request.fromJson {T : Type} (paramsFrom : Json → Option T) (j : Json) :
    Option (Request T) := do
  let ts ← (← j.lookup "timeStamp").getStr
  let di ← (← j.lookup "dappId").getStr
  let bc ← Blockchain.fromJson (← j.lookup "blockchain")
  let v ← (← j.lookup "version").getStr
  let cc ← (← j.lookup "categoryCode").getStr
  let ec ← (← j.lookup "eventCode").getStr
  let p ← paramsFrom j
  pure ⟨ts, di, bc, v, cc, ec, p⟩

/-- The single-field parameter payload `params = ⦃scope: "0xAA"⦄` named by the
spec's round-trip property: a concrete instantiation of the type parameter of
`Request`, serialized flattened as the one field `scope`. -/
structure ScopeParams where
  scope : String
deriving DecidableEq, Repr

/-- Field list contributed by `ScopeParams` when flattened into a request. -/
def ScopeParams.toJsonFields (p : ScopeParams) : List (String × Json) :=
  [("scope", .str p.scope)]

/-- Deserialization of `ScopeParams` from the enclosing JSON object. -/
def ScopeParams.fromJson (j : Json) : Option ScopeParams := do
  let s ← (← j.lookup "scope").getStr
  pure ⟨s⟩

/-- Pending/confirmed info and the domain event types carried by a
notification (`PendingInfo`). -/
structure PendingInfo where
  pending_time_stamp : String
  pending_block_number : Int
deriving DecidableEq, Repr

/-- Confirmation info (`ConfirmedInfo`). -/
structure ConfirmedInfo where
  time_pending : String
  blocks_pending : Int
  block_hash : String
  block_number : Int
  transaction_index : Int
  block_time_stamp : String
  gas_used : String
deriving DecidableEq, Repr

/-- Watched-address info (`WatchedAddressInfo`). -/
structure WatchedAddressInfo where
  watched_address : String
  direction : String
  counterparty : String
deriving DecidableEq, Repr

/-- Contract-call payload (`struct ContractCall`); `params` is an opaque
`serde_json::Value`. -/
structure ContractCall where
  contract_type : String
  contract_address : String
  method_name : String
  params : Json
  contract_name : String
deriving DecidableEq

/-- Domain transaction (`struct Transaction`).  The Rust fields `from` and
`to` clash with Lean tokens and are spelled `from_` and `to_` here. -/
structure Transaction where
  status : String
  monitor_id : String
  monitor_version : String
  confirmed : Option ConfirmedInfo
  pending : Option PendingInfo
  hash : String
  from_ : String
  to_ : String
  value : String
  gas : Nat
  nonce : Nat
  v : String
  r : String
  s : String
  input : String
  gas_price : String
  gas_price_gwei : Nat
  type_field : Option Int
  asset : String
  watch_info : Option WatchedAddressInfo
deriving DecidableEq

/-- Domain event carried by a notification (`struct Event`). -/
structure Event where
  time_stamp : String
  category_code : String
  event_code : String
  dapp_id : String
  blockchain : Blockchain
  contract_call : Option ContractCall
  transaction : Option Transaction
deriving DecidableEq

/-- Server-pushed notification envelope (`struct Response`). -/
structure Response where
  version : Nat
  server_version : String
  time_stamp : String
  connection_id : String
  status : String
  raw : Option String
  event : Option Event
  reason : Option String
  dispatch_timestamp : Option String
deriving DecidableEq

/-- Connection-establishment greeting (`struct HelloMsg`). -/
structure HelloMsg where
  version : Int
  server_version : String
  status : String
  show_ux : Bool
  connection_id : String
deriving DecidableEq, Repr

/-- Filter configuration for `listen` (`struct WatchConfig`). -/
structure WatchConfig where
  scope : String
  filters : List (List (String × String))
  abi : List Json
  watch_address : Bool
deriving DecidableEq

/-- Wrapper sent as the params of a `configs`/`put` request
(`struct WatchRequest`). -/
structure WatchRequest where
  config : WatchConfig
deriving DecidableEq

instance {ε α : Type} [DecidableEq ε] [DecidableEq α] :
    DecidableEq (Except ε α) := fun a b =>
  match a, b with
  | .ok x, .ok y => if h : x = y then isTrue (by simp [h]) else isFalse (by simp [h])
  | .error x, .error y =>
    if h : x = y then isTrue (by simp [h]) else isFalse (by simp [h])
  | .ok _, .error _ => isFalse (fun h => nomatch h)
  | .error _, .ok _ => isFalse (fun h => nomatch h)

/-! ## `src/ws/ws.rs` — data model of the connection actor -/

/-- Model of one delivery channel (`mpsc::unbounded::<Response>()`), seen from
the actor's side: whether the subscriber still holds the receiving end, and
the queue of notifications delivered so far (in delivery order).
`unbounded_send` on an unbounded channel fails exactly when the receiver has
been dropped, and that failure reports `is_disconnected() = true`. -/
structure Channel where
  receiverOpen : Bool
  items : List Response
deriving DecidableEq

/-- Lookup in the subscription registry (`BTreeMap<u64, Subscription>`),
modelled as an association list with unique keys. -/
def regLookup (id : Nat) : List (Nat × Channel) → Option Channel
  | [] => none
  | (k, v) :: rest => if k = id then some v else regLookup id rest

/-- Removal from the subscription registry (`BTreeMap::remove`). -/
def regErase (id : Nat) (l : List (Nat × Channel)) : List (Nat × Channel) :=
  l.filter (fun p => p.1 ≠ id)

/-- Insertion into the subscription registry (`BTreeMap::insert`): the new
binding replaces any previous binding of the same key. -/
def regInsert (id : Nat) (ch : Channel) (l : List (Nat × Channel)) :
    List (Nat × Channel) :=
  (id, ch) :: regErase id l

/-- Model of `oneshot::Sender<Result<Value, JsonRpcError>>`; entries of the
pending-request table are never inspected by the actor (the table is only
popped), so the handle is opaque. -/
structure Pending where
  token : Unit
deriving DecidableEq

/-- Model of `tungstenite::Error`; the actor never inspects its structure
(it is matched with a wildcard), so it is an opaque code. -/
structure WsErr where
  code : Nat
deriving DecidableEq

/-- Model of `tungstenite::protocol::CloseFrame`: a close code and a reason
string. -/
structure CloseFrame where
  code : Nat
  reason : String
deriving DecidableEq

/-- Error type of the client (`enum ClientError`).  `jsonError` and
`channelError` carry the formatted message of the underlying error (the
source stores `serde_json::Error` and a `format!("{:?}", err)` string). -/
inductive ClientError where
  | jsonError (msg : String)
  | jsonRpcError (e : JsonRpcError)
  | unexpectedBinary (buf : List Nat)
  | tungsteniteError (e : WsErr)
  | channelError (msg : String)
  | canceled
  | wsClosed (frame : CloseFrame)
  | unexpectedClose
deriving DecidableEq

/-- Conversion `to_client_error`: wraps the `Debug` rendering of a channel
send error into `ClientError::ChannelError`. -/
def to_client_error (debugText : String) : ClientError :=
  .channelError debugText

/-- Debug rendering of the `TrySendError` produced when `unbounded_send`
fails because the receiver was dropped.  The exact `format!("{:?}", _)` text
is not modelled; no behaviour depends on it. -/
def sendErrorDebugText : String := "TrySendError: receiver disconnected"

/-- Commands for the `WsServer` (`enum Instruction`).  The serialized request
text of `Instruction::Request` is represented by its JSON value. -/
inductive Instruction where
  | ping
  | request (request : Json)
  | subscribe (id : Nat) (sink : Channel)
  | unsubscribe (id : Nat)
deriving DecidableEq

/-- Parse result of an inbound text frame (`enum Incoming`, an untagged union
tried as `HelloMsg` first, then `Response`). -/
inductive Incoming where
  | helloMsg (h : HelloMsg)
  | response (r : Response)
deriving DecidableEq

/-- Inbound WebSocket frame (`tungstenite::protocol::Message`), as consumed
by `WsServer::handle`.  A text frame is represented by the outcome of the
serde parse that `handle_text` applies to it: `none` models malformed text,
`some i` models text that parses as `i`. -/
inductive Message where
  | text (parsed : Option Incoming)
  | ping (payload : List Nat)
  | pong (payload : List Nat)
  | close (frame : Option CloseFrame)
  | binary (buf : List Nat)
deriving DecidableEq

/-- Outbound WebSocket frame written by the actor (`ws.send(...)`). -/
inductive OutMsg where
  | text (payload : Json)
  | ping (payload : List Nat)
  | pong (payload : List Nat)
deriving DecidableEq

/-- The two `warn!` log events emitted by the registry operations.  Other
logging (`debug!`, `error!`) carries no state and is not modelled. -/
inductive LogWarning where
  | replacedSubscription (id : Nat)
  | unsubscribedNonexistent (id : Nat)
deriving DecidableEq

/-- State of the connection actor (`struct WsServer`): whether the fused
instruction stream is done (channel closed and drained), the pending-request
table (a `Vec`, only ever popped), and the subscription registry. -/
structure WsServer where
  instructionsDone : Bool
  pending : List Pending
  subscriptions : List (Nat × Channel)
deriving DecidableEq

/-- Result of one actor operation: the successor state, the frames written to
the socket, the warnings logged, and the returned `Result<(), ClientError>`. -/
structure StepResult where
  state : WsServer
  out : List OutMsg
  warns : List LogWarning
  result : Except ClientError Unit
deriving DecidableEq

namespace WsServer

/-- Method `WsServer::is_done`: the instruction channel is closed and drained,
and all pending requests and subscriptions have been completed. -/
def is_done (s : WsServer) : Bool :=
  s.instructionsDone && s.pending.isEmpty && s.subscriptions.isEmpty

/-- Method `WsServer::service_request`: writes the request as a text frame;
on a write error it logs and pops the pending-request table, and still
returns `Ok(())`.  `sendErr` is the environment's outcome for the one socket
write performed here. -/
def service_request (s : WsServer) (request : Json) (sendErr : Option WsErr) :
    StepResult :=
  match sendErr with
  | some _ =>
    { state := { s with pending := s.pending.dropLast }
      out := []
      warns := []
      result := .ok () }
  | none =>
    { state := s, out := [.text request], warns := [], result := .ok () }

/-- Method `WsServer::service_ping`: writes a ping frame with an empty
payload; a write error propagates (`?`). -/
def service_ping (s : WsServer) (sendErr : Option WsErr) : StepResult :=
  match sendErr with
  | some e =>
    { state := s, out := [], warns := [], result := .error (.tungsteniteError e) }
  | none =>
    { state := s, out := [.ping []], warns := [], result := .ok () }

/-- Method `WsServer::service_subscribe`: inserts the sink under `id`;
if a previous binding existed it logs a warning.  Always returns `Ok(())`. -/
def service_subscribe (s : WsServer) (id : Nat) (sink : Channel) : StepResult :=
  { state := { s with subscriptions := regInsert id sink s.subscriptions }
    out := []
    warns :=
      if (regLookup id s.subscriptions).isSome then [.replacedSubscription id]
      else []
    result := .ok () }

/-- Method `WsServer::service_unsubscribe`: removes the binding of `id`;
if none existed it logs a warning.  Always returns `Ok(())`. -/
def service_unsubscribe (s : WsServer) (id : Nat) : StepResult :=
  { state := { s with subscriptions := regErase id s.subscriptions }
    out := []
    warns :=
      if (regLookup id s.subscriptions).isNone then [.unsubscribedNonexistent id]
      else []
    result := .ok () }

/-- Method `WsServer::service`: exhaustive dispatch over the command sum
type. -/
def service (s : WsServer) (instruction : Instruction)
    (sendErr : Option WsErr) : StepResult :=
  match instruction with
  | .request request => s.service_request request sendErr
  | .ping => s.service_ping sendErr
  | .subscribe id sink => s.service_subscribe id sink
  | .unsubscribe id => s.service_unsubscribe id

/-- Method `WsServer::handle_ping`: answers with a pong frame echoing the
payload; a write error propagates (`?`). -/
def handle_ping (s : WsServer) (inner : List Nat) (sendErr : Option WsErr) :
    StepResult :=
  match sendErr with
  | some e =>
    { state := s, out := [], warns := [], result := .error (.tungsteniteError e) }
  | none =>
    { state := s, out := [.pong inner], warns := [], result := .ok () }

/-- Method `WsServer::handle_text`, applied to the parse outcome of the text
frame.  Malformed text and greetings are dropped with `Ok(())`.  A
`Response` whose `raw` is absent is routed to the registry entry at the
hardcoded key `1u64`: if that entry's channel is still open the response is
appended to it; if the receiver was dropped the entry is removed and the
send error is returned as a `ChannelError`.  A `Response` with `raw` present
is dropped. -/
def handle_text (s : WsServer) (parsed : Option Incoming) : StepResult :=
  match parsed with
  | none => { state := s, out := [], warns := [], result := .ok () }
  | some (.helloMsg _) => { state := s, out := [], warns := [], result := .ok () }
  | some (.response resp) =>
    if resp.raw.isNone then
      match regLookup 1 s.subscriptions with
      | none => { state := s, out := [], warns := [], result := .ok () }
      | some ch =>
        if ch.receiverOpen then
          let ch' : Channel := { ch with items := ch.items ++ [resp] }
          { state := { s with subscriptions := regInsert 1 ch' s.subscriptions }
            out := []
            warns := []
            result := .ok () }
        else
          { state := { s with subscriptions := regErase 1 s.subscriptions }
            out := []
            warns := []
            result := .error (to_client_error sendErrorDebugText) }
    else { state := s, out := [], warns := [], result := .ok () }

/-- Method `WsServer::handle`: classification of one inbound frame. -/
def handle (s : WsServer) (resp : Message) (sendErr : Option WsErr) :
    StepResult :=
  match resp with
  | .text inner => s.handle_text inner
  | .ping inner => s.handle_ping inner sendErr
  | .pong _ => { state := s, out := [], warns := [], result := .ok () }
  | .close (some frame) =>
    { state := s, out := [], warns := [], result := .error (.wsClosed frame) }
  | .close none =>
    { state := s, out := [], warns := [], result := .error .unexpectedClose }
  | .binary buf =>
    { state := s, out := [], warns := [], result := .error (.unexpectedBinary buf) }

end WsServer

/-- The one ready event chosen by `futures_util::select!` inside
`WsServer::tick`: either the next instruction from the command queue, or the
next item of the socket stream (`Some(Ok(_))` a frame, `Some(Err(_))` a read
error, `None` stream exhaustion). -/
inductive TickInput where
  | instruction (i : Instruction)
  | wsItem (item : Option (Except WsErr Message))
deriving DecidableEq

namespace WsServer

/-- Method `WsServer::tick`: processes exactly one ready event.  An
instruction is dispatched through `service`; a frame through `handle` (either
propagating its error with `?`); a stream read error is matched with
`Some(Err(_)) => {}` and discarded; stream exhaustion returns
`Err(UnexpectedClose)`. -/
def tick (s : WsServer) (input : TickInput) (sendErr : Option WsErr) :
    StepResult :=
  match input with
  | .instruction i => s.service i sendErr
  | .wsItem (some (.ok resp)) => s.handle resp sendErr
  | .wsItem (some (.error _)) =>
    { state := s, out := [], warns := [], result := .ok () }
  | .wsItem none =>
    { state := s, out := [], warns := [], result := .error .unexpectedClose }

end WsServer

/-- Outcome of one iteration of the run loop spawned by `WsServer::spawn`:
`breakDone` is the clean `break` taken when `is_done()` holds before the
tick; `breakUnexpectedClose` is the `break` taken on
`Err(ClientError::UnexpectedClose)`; `panicked` is the
`panic!("WS Server panic: ...")` branch taken on every other error;
`continued` carries the successor state when the loop iterates again. -/
inductive LoopOutcome where
  | breakDone
  | breakUnexpectedClose
  | panicked (e : ClientError)
  | continued (s : WsServer) (out : List OutMsg)
deriving DecidableEq

/-- One iteration of the event loop of `WsServer::spawn`: check `is_done()`
first, then run `tick` on the one ready event and classify its result. -/
def spawnStep (s : WsServer) (input : TickInput) (sendErr : Option WsErr) :
    LoopOutcome :=
  if s.is_done then .breakDone
  else
    match (s.tick input sendErr).result with
    | .error .unexpectedClose => .breakUnexpectedClose
    | .error e => .panicked e
    | .ok _ =>
      .continued (s.tick input sendErr).state (s.tick input sendErr).out

/-- Iterated `handle_text` over a sequence of inbound text frames in socket
arrival order (each frame handled to completion before the next is fetched). -/
def handleTexts (s : WsServer) (ps : List (Option Incoming)) : WsServer :=
  ps.foldl (fun st p => (st.handle_text p).state) s

/-! ## `src/ws/ws.rs` — the client handle `Ws` -/

/-- The client handle (`struct Ws`): a sender end of the command queue, the
credential, and the blockchain scope.  `instructionsOpen` models whether the
command channel is still open (`!instructions.is_closed()`); it is the
environment of one call and does not change during it. -/
structure Ws where
  instructionsOpen : Bool
  api_key : String
  blockchain : Blockchain
deriving DecidableEq

/-- Outcome of a client-handle call whose source `unwrap`s the result of
`cast`: either the call panics (the command queue was closed, so the
enqueue inside `cast` failed and `unwrap` fired), or the listed instructions
were enqueued, in order. -/
inductive CallOutcome where
  | panicked
  | sent (instructions : List Instruction)
deriving DecidableEq

/-- Method `Ws::ready`: `!self.instructions.is_closed()`. -/
def Ws.ready (w : Ws) : Bool := w.instructionsOpen

/-- Method `Ws::cast`: builds a `Request` envelope (with the modelled clock
reading `now`), serializes it, and enqueues it as `Instruction::Request`.
Fails with a channel error when the command queue is closed. -/
def Ws.cast {T : Type} (w : Ws) (now : String)
    (paramsFields : T → List (String × Json)) (method : String) (code : String)
    (params : T) : Except ClientError Instruction :=
  let payload :=
    Request.toJson paramsFields
      (Request.new now w.api_key w.blockchain method code params)
  if w.instructionsOpen then .ok (.request payload)
  else .error (to_client_error "TrySendError: channel closed")

/-- The hardcoded transaction hash in `Ws::unsubscribe`. -/
def hardcodedUnwatchHash : String :=
  "0x0b4c94c414f71ddd5e7a625fcaa83ff1f93e9a7ca37e0f577b488ac8fd786655"

/-- Method `Ws::unsubscribe`: first `cast`s an
`("activeTransaction", "unwatch")` request whose params are
`TransactionSubscribe::new` of the hardcoded hash, `unwrap`ping the result
(panic when the queue is closed), then enqueues `Instruction::Unsubscribe`
for the given id.  The final `send` can only fail when the queue is closed,
in which case the `unwrap` has already panicked, so on the non-panicking
path both instructions are enqueued. -/
def Ws.unsubscribe (w : Ws) (now : String) (id : Nat) : CallOutcome :=
  match w.cast now TransactionSubscribe.toJsonFields "activeTransaction"
      "unwatch" (TransactionSubscribe.new hardcodedUnwatchHash) with
  | .error _ => .panicked
  | .ok reqInstr => .sent [reqInstr, .unsubscribe id]

/-- Serialization of `WatchConfig` (camelCase field names). -/
def WatchConfig.toJson (c : WatchConfig) : Json :=
  .obj [("scope", .str c.scope),
        ("filters",
         .arr (c.filters.map (fun f => .obj (f.map (fun kv => (kv.1, .str kv.2)))))),
        ("abi", .arr c.abi),
        ("watchAddress", .bool c.watch_address)]

/-- Field list contributed by `WatchRequest` when flattened into a request. -/
def WatchRequest.toJsonFields (r : WatchRequest) : List (String × Json) :=
  [("config", r.config.toJson)]

/-- Method `Ws::listen`: `cast`s a `("configs", "put")` request carrying the
watch configuration (`unwrap`ped), then enqueues `Instruction::Subscribe`
with the fixed subscription id `1u32.into()` and a freshly created delivery
channel (receiver open, no items yet). -/
def Ws.listen (w : Ws) (now : String) (config : WatchConfig) : CallOutcome :=
  match w.cast now WatchRequest.toJsonFields "configs" "put" ⟨config⟩ with
  | .error _ => .panicked
  | .ok reqInstr => .sent [reqInstr, .subscribe 1 ⟨true, []⟩]

/-- The JSON envelope built and serialized inside `Ws::unsubscribe`: an
`("activeTransaction", "unwatch")` request whose params are
`TransactionSubscribe::new` of the hardcoded hash.  It does not depend on
the id being unsubscribed. -/
def Ws.unwatchRequestJson (w : Ws) (now : String) : Json :=
  Request.toJson TransactionSubscribe.toJsonFields
    (Request.new now w.api_key w.blockchain "activeTransaction" "unwatch"
      (TransactionSubscribe.new hardcodedUnwatchHash))

/-- A sample notification envelope with `raw` absent (routable). -/
def sampleResponse : Response :=
  ⟨0, "0.123.2", "2021-12-07T10:20:25.212Z", "C4-bc4de41f", "ok",
   none, none, none, none⟩

/-- A second sample routable notification, distinguishable from
`sampleResponse`. -/
def sampleResponse2 : Response :=
  ⟨0, "0.123.2", "2021-12-07T10:21:00.000Z", "C4-bc4de41f", "ok",
   none, none, some "second", none⟩

/-- A sample notification envelope with `raw` present. -/
def sampleRawResponse : Response :=
  ⟨0, "0.123.2", "2021-12-07T10:20:25.212Z", "C4-bc4de41f", "ok",
   some "0xf86c0a85", none, none, none⟩

/-! ## Registry lemmas -/

/-- Number of registry entries bound to a given id. -/
def countKey (id : Nat) (l : List (Nat × Channel)) : Nat :=
  l.countP (fun p => p.1 = id)

theorem regLookup_regErase_self (id : Nat) (l : List (Nat × Channel)) :
    regLookup id (regErase id l) = none := by
  induction l with
  | nil => rfl
  | cons p rest ih =>
    rcases p with ⟨k, v⟩
    by_cases h : k = id
    · simpa [regErase, List.filter_cons, h] using ih
    · simpa [regErase, regLookup, List.filter_cons, h] using ih

theorem regLookup_regErase_ne (id k : Nat) (h : k ≠ id)
    (l : List (Nat × Channel)) : regLookup k (regErase id l) = regLookup k l := by
  induction l with
  | nil => rfl
  | cons p rest ih =>
    rcases p with ⟨k', v⟩
    by_cases h' : k' = id
    · have hk : ¬(k' = k) := by rw [h']; exact fun hh => h hh.symm
      have h1 : regErase id ((k', v) :: rest) = regErase id rest := by
        simp [regErase, List.filter_cons, h']
      rw [h1, ih]
      simp only [regLookup]
      rw [if_neg hk]
    · have h2 : regErase id ((k', v) :: rest) = (k', v) :: regErase id rest := by
        simp [regErase, List.filter_cons, h']
      rw [h2]
      simp only [regLookup]
      by_cases h'' : k' = k
      · rw [if_pos h'', if_pos h'']
      · rw [if_neg h'', if_neg h'', ih]

theorem regErase_of_lookup_none (id : Nat) (l : List (Nat × Channel))
    (h : regLookup id l = none) : regErase id l = l := by
  induction l with
  | nil => rfl
  | cons p rest ih =>
    rcases p with ⟨k, v⟩
    simp only [regLookup] at h
    by_cases hk : k = id
    · rw [if_pos hk] at h
      exact absurd h (by simp)
    · rw [if_neg hk] at h
      have h2 : regErase id ((k, v) :: rest) = (k, v) :: regErase id rest := by
        simp [regErase, List.filter_cons, hk]
      rw [h2, ih h]

theorem regLookup_regInsert_self (id : Nat) (ch : Channel)
    (l : List (Nat × Channel)) : regLookup id (regInsert id ch l) = some ch := by
  simp [regInsert, regLookup]

theorem regLookup_regInsert_ne (id k : Nat) (h : k ≠ id) (ch : Channel)
    (l : List (Nat × Channel)) :
    regLookup k (regInsert id ch l) = regLookup k l := by
  have hid : id ≠ k := fun hh => h hh.symm
  rw [regInsert, regLookup, if_neg hid]
  exact regLookup_regErase_ne id k h l

theorem countKey_regErase (id : Nat) (l : List (Nat × Channel)) :
    countKey id (regErase id l) = 0 := by
  induction l with
  | nil => rfl
  | cons p rest ih =>
    rcases p with ⟨k, v⟩
    by_cases h : k = id
    · simpa [regErase, List.filter_cons, h] using ih
    · simp [regErase, List.filter_cons, h, countKey, List.countP_cons]

theorem countKey_regInsert (id : Nat) (ch : Channel)
    (l : List (Nat × Channel)) : countKey id (regInsert id ch l) = 1 := by
  simp [regInsert, countKey, List.countP_cons]
  simpa [countKey] using countKey_regErase id l

theorem is_done_false_of_lookup (s : WsServer) (id : Nat) (ch : Channel)
    (h : regLookup id s.subscriptions = some ch) : s.is_done = false := by
  rcases hl : s.subscriptions with _ | ⟨p, rest⟩
  · rw [hl] at h; exact absurd h (by simp [regLookup])
  · simp [WsServer.is_done, hl]

/-! ## Claim theorems -/

/-- C5: the run loop of `WsServer::spawn` takes its clean `break` exactly when
the command queue is closed and drained, the pending-request table is empty
and the subscription registry is empty, and this condition is checked before
each tick; in addition, any non-`Ok` (terminal-condition) result from
`tick()` ends the loop immediately (the iteration never continues), and in
the remaining case the loop continues with the ticked state. -/
theorem C5_loop_termination (s : WsServer) (input : TickInput)
    (e : Option WsErr) :
    (spawnStep s input e = .breakDone
      ↔ (s.instructionsDone = true ∧ s.pending = [] ∧ s.subscriptions = []))
    ∧ ((s.tick input e).result ≠ .ok ()
        → ∀ s' out, spawnStep s input e ≠ .continued s' out)
    ∧ (s.is_done = false → (s.tick input e).result = .ok ()
        → spawnStep s input e
            = .continued (s.tick input e).state (s.tick input e).out) := by
  have hdone_iff : s.is_done = true
      ↔ (s.instructionsDone = true ∧ s.pending = [] ∧ s.subscriptions = []) := by
    simp [WsServer.is_done, List.isEmpty_iff, and_assoc]
  by_cases hd : s.is_done = true
  · refine ⟨?_, ?_, ?_⟩
    · rw [show spawnStep s input e = .breakDone by simp [spawnStep, hd]]
      exact ⟨fun _ => hdone_iff.mp hd, fun _ => rfl⟩
    · intro _ s' out
      simp [spawnStep, hd]
    · intro hf
      rw [hd] at hf
      exact absurd hf (by simp)
  · rw [Bool.not_eq_true] at hd
    refine ⟨?_, ?_, ?_⟩
    · constructor
      · intro hstep
        exfalso
        rcases hres : (s.tick input e).result with err | u
        · rcases err <;> simp [spawnStep, hd, hres] at hstep
        · simp [spawnStep, hd, hres] at hstep
      · intro hcond
        have := hdone_iff.mpr hcond
        rw [hd] at this
        exact absurd this (by simp)
    · intro hne s' out hstep
      rcases hres : (s.tick input e).result with err | u
      · rcases err <;> simp [spawnStep, hd, hres] at hstep
      · cases u
        exact hne hres
    · intro _ hok
      simp [spawnStep, hd, hok]

/-- Witness for C5: at a fully-drained state the loop breaks cleanly, and at
a non-done state whose tick reports stream exhaustion (a terminal condition)
the loop does not continue. -/
theorem C5_witness :
    spawnStep ⟨true, [], []⟩ (.wsItem none) none = .breakDone
    ∧ spawnStep ⟨false, [], [(1, ⟨true, []⟩)]⟩ (.wsItem none) none
        ≠ .continued ⟨false, [], [(1, ⟨true, []⟩)]⟩ [] := by
  constructor
  · exact (C5_loop_termination ⟨true, [], []⟩ (.wsItem none) none).1.mpr
      (by decide)
  · exact (C5_loop_termination ⟨false, [], [(1, ⟨true, []⟩)]⟩ (.wsItem none)
      none).2.1 (by decide) ⟨false, [], [(1, ⟨true, []⟩)]⟩ []

/-- C6: a notification whose `raw` field is present is never delivered:
`handle_text` returns the state unchanged (so no delivery channel gains an
item), writes nothing, warns nothing, and reports `Ok(())`. -/
theorem C6_raw_present_never_delivered (s : WsServer) (resp : Response)
    (sraw : String) (h : resp.raw = some sraw) :
    s.handle_text (some (.response resp)) = ⟨s, [], [], .ok ()⟩
    ∧ ∀ id, regLookup id (s.handle_text (some (.response resp))).state.subscriptions
        = regLookup id s.subscriptions := by
  have hn : (resp.raw).isNone = false := by rw [h]; rfl
  constructor
  · simp [WsServer.handle_text, hn]
  · intro id
    simp [WsServer.handle_text, hn]

/-- Witness for C6 at a concrete state and notification carrying a `raw`
payload. -/
theorem C6_witness :
    WsServer.handle_text ⟨false, [], [(1, ⟨true, []⟩)]⟩
      (some (.response sampleRawResponse))
    = ⟨⟨false, [], [(1, ⟨true, []⟩)]⟩, [], [], .ok ()⟩ :=
  (C6_raw_present_never_delivered ⟨false, [], [(1, ⟨true, []⟩)]⟩
    sampleRawResponse "0xf86c0a85" rfl).1

/-- C7: subscribing with an id that is already registered does not error:
the result is `Ok(())`, afterwards the registry holds exactly one entry for
that id, bound to the newest sink, and the replacement is reported only as a
warning. -/
theorem C7_resubscribe_replaces (s : WsServer) (id : Nat) (sink old : Channel)
    (h : regLookup id s.subscriptions = some old) :
    (s.service_subscribe id sink).result = .ok ()
    ∧ regLookup id (s.service_subscribe id sink).state.subscriptions = some sink
    ∧ countKey id (s.service_subscribe id sink).state.subscriptions = 1
    ∧ (s.service_subscribe id sink).warns = [.replacedSubscription id] := by
  refine ⟨rfl, ?_, ?_, ?_⟩
  · simp [WsServer.service_subscribe, regLookup_regInsert_self]
  · simp [WsServer.service_subscribe, countKey_regInsert]
  · simp [WsServer.service_subscribe, h]

/-- Witness for C7 at a concrete registry already holding id 1. -/
theorem C7_witness :
    regLookup 1 ((WsServer.service_subscribe ⟨false, [], [(1, ⟨false, [sampleResponse]⟩)]⟩
      1 ⟨true, []⟩).state.subscriptions) = some ⟨true, []⟩ :=
  (C7_resubscribe_replaces ⟨false, [], [(1, ⟨false, [sampleResponse]⟩)]⟩ 1
    ⟨true, []⟩ ⟨false, [sampleResponse]⟩ rfl).2.1

/-- C8: unsubscribing leaves no registry entry for the id (in particular
after a subscribe of the same id), never errors, and unsubscribing an absent
id leaves the state — hence the registry contents and size — unchanged,
logging only a warning. -/
theorem C8_unsubscribe_removes (s : WsServer) (id : Nat) (sink : Channel) :
    (s.service_unsubscribe id).result = .ok ()
    ∧ regLookup id (s.service_unsubscribe id).state.subscriptions = none
    ∧ regLookup id (((s.service_subscribe id sink).state.service_unsubscribe
        id).state.subscriptions) = none
    ∧ (regLookup id s.subscriptions = none →
        (s.service_unsubscribe id).state = s
        ∧ (s.service_unsubscribe id).state.subscriptions.length
            = s.subscriptions.length
        ∧ (s.service_unsubscribe id).warns = [.unsubscribedNonexistent id]) := by
  refine ⟨rfl, ?_, ?_, ?_⟩
  · simp [WsServer.service_unsubscribe, regLookup_regErase_self]
  · simp [WsServer.service_unsubscribe, regLookup_regErase_self]
  · intro hnone
    have he := regErase_of_lookup_none id s.subscriptions hnone
    refine ⟨?_, ?_, ?_⟩
    · simp [WsServer.service_unsubscribe, he]
    · simp [WsServer.service_unsubscribe, he]
    · simp [WsServer.service_unsubscribe, hnone]

/-- Witness for C8: removing an id that is absent from a concrete registry
leaves the state unchanged. -/
theorem C8_witness :
    (WsServer.service_unsubscribe ⟨false, [], [(2, ⟨true, []⟩)]⟩ 7).state
      = ⟨false, [], [(2, ⟨true, []⟩)]⟩ :=
  ((C8_unsubscribe_removes ⟨false, [], [(2, ⟨true, []⟩)]⟩ 7 ⟨true, []⟩).2.2.2
    (by decide)).1

/-- C9: building the request envelope from credential `"abc"`, blockchain
`(ethereum, matic-main)`, method `"configs"`, event code `"put"` and params
`scope = "0xAA"`, serializing it and deserializing the result yields a
structurally equal envelope, for any clock reading. -/
theorem C9_request_roundtrip (now : String) :
    Request.fromJson ScopeParams.fromJson
      (Request.toJson ScopeParams.toJsonFields
        (Request.new now "abc" ⟨System.ethereum, Network.polygon⟩
          "configs" "put" ⟨"0xAA"⟩))
    = some (Request.new now "abc" ⟨System.ethereum, Network.polygon⟩
        "configs" "put" ⟨"0xAA"⟩) := rfl

/-- C10: for every id, `Ws::unsubscribe` first enqueues a request envelope
with category code `"activeTransaction"` and event code `"unwatch"` whose
payload carries the one hardcoded transaction hash (the same JSON for every
id), and only then the `Unsubscribe` command for the given id; when the
enqueue fails because the command queue is closed, the call panics. -/
theorem C10_unsubscribe_hardcoded_hash (w : Ws) (now : String) (id : Nat) :
    (w.instructionsOpen = true →
      w.unsubscribe now id
        = .sent [.request (w.unwatchRequestJson now), .unsubscribe id]
      ∧ (w.unwatchRequestJson now).lookup "categoryCode"
          = some (.str "activeTransaction")
      ∧ (w.unwatchRequestJson now).lookup "eventCode" = some (.str "unwatch")
      ∧ (w.unwatchRequestJson now).lookup "transaction"
          = some (.obj [("hash", .str hardcodedUnwatchHash)]))
    ∧ (w.instructionsOpen = false → w.unsubscribe now id = .panicked) := by
  constructor
  · intro hopen
    refine ⟨?_, rfl, rfl, rfl⟩
    simp [Ws.unsubscribe, Ws.cast, hopen, Ws.unwatchRequestJson]
  · intro hclosed
    simp [Ws.unsubscribe, Ws.cast, hclosed]

/-- Witness for C10 at a concrete handle with an open queue and id 5. -/
theorem C10_witness :
    Ws.unsubscribe ⟨true, "abc", ⟨System.ethereum, Network.polygon⟩⟩ "t0" 5
      = .sent [.request (Ws.unwatchRequestJson
          ⟨true, "abc", ⟨System.ethereum, Network.polygon⟩⟩ "t0"),
        .unsubscribe 5] :=
  ((C10_unsubscribe_hardcoded_hash
    ⟨true, "abc", ⟨System.ethereum, Network.polygon⟩⟩ "t0" 5).1 rfl).1

/-- Refutation of C1 as stated: with the registered subscription's delivery
channel closed (the subscriber dropped its receiver), handling a subsequent
routable notification does not let the run loop continue — the send error is
propagated out of `tick()` and the loop takes the `panic!` branch. -/
theorem C1_counterexample :
    spawnStep ⟨false, [], [(1, ⟨false, []⟩)]⟩
      (.wsItem (some (.ok (.text (some (.response sampleResponse)))))) none
      = .panicked (.channelError sendErrorDebugText) := by decide

/-- C1 (amended): when the delivery channel of the registered entry at the
routed slot has been closed by the subscriber, handling a routable
notification does remove that registry entry, but the failure is returned as
a `ChannelError` from `handle_text` and the run loop treats it as a fatal
fault (the `panic!` branch), so the actor does not continue. -/
theorem C1_dropped_receiver_removes_entry_but_panics (s : WsServer)
    (resp : Response) (ch : Channel) (e : Option WsErr)
    (hlook : regLookup 1 s.subscriptions = some ch)
    (hclosed : ch.receiverOpen = false) (hraw : resp.raw = none) :
    regLookup 1 (s.handle_text (some (.response resp))).state.subscriptions = none
    ∧ (s.handle_text (some (.response resp))).result
        = .error (.channelError sendErrorDebugText)
    ∧ spawnStep s (.wsItem (some (.ok (.text (some (.response resp)))))) e
        = .panicked (.channelError sendErrorDebugText) := by
  have hdone := is_done_false_of_lookup s 1 ch hlook
  have hrn : (resp.raw).isNone = true := by rw [hraw]; rfl
  have hres : s.handle_text (some (.response resp))
      = ⟨{ s with subscriptions := regErase 1 s.subscriptions }, [], [],
         .error (.channelError sendErrorDebugText)⟩ := by
    simp [WsServer.handle_text, hrn, hlook, hclosed, to_client_error]
  refine ⟨?_, ?_, ?_⟩
  · rw [hres]
    exact regLookup_regErase_self 1 s.subscriptions
  · rw [hres]
  · simp [spawnStep, hdone, WsServer.tick, WsServer.handle, hres]

/-- Witness for the amended C1 at a concrete two-entry registry whose slot 1
channel is closed. -/
theorem C1_witness :
    regLookup 1 ((WsServer.handle_text
      ⟨false, [], [(2, ⟨true, []⟩), (1, ⟨false, []⟩)]⟩
      (some (.response sampleResponse))).state.subscriptions) = none :=
  (C1_dropped_receiver_removes_entry_but_panics
    ⟨false, [], [(2, ⟨true, []⟩), (1, ⟨false, []⟩)]⟩ sampleResponse
    ⟨false, []⟩ none (by decide) rfl rfl).1

/-- Refutation of C2 as stated: a close frame with explicit close info does
not terminate the run loop cleanly — the `WsClosed` error reaches the
`panic!` branch of the loop, a fatal fault rather than a graceful-close
report. -/
theorem C2_counterexample :
    spawnStep ⟨false, [], [(1, ⟨true, []⟩)]⟩
      (.wsItem (some (.ok (.close (some ⟨1000, "server going away"⟩))))) none
      = .panicked (.wsClosed ⟨1000, "server going away"⟩) := by decide

/-- C2 (amended): a close frame carrying explicit close info makes `tick()`
return the graceful-close error `WsClosed` with the state — and hence every
delivery channel — unchanged (no further items), and the run loop then
terminates, but through the fatal `panic!` branch rather than the clean
`break` reserved for `UnexpectedClose`. -/
theorem C2_close_frame_is_fatal_panic (s : WsServer) (frame : CloseFrame)
    (e : Option WsErr) (hdone : s.is_done = false) :
    (s.tick (.wsItem (some (.ok (.close (some frame))))) e).result
        = .error (.wsClosed frame)
    ∧ (s.tick (.wsItem (some (.ok (.close (some frame))))) e).state = s
    ∧ spawnStep s (.wsItem (some (.ok (.close (some frame))))) e
        = .panicked (.wsClosed frame) := by
  refine ⟨rfl, rfl, ?_⟩
  simp [spawnStep, hdone, WsServer.tick, WsServer.handle]

/-- Witness for the amended C2 at a concrete non-done state (pending request
outstanding) and a concrete close frame. -/
theorem C2_witness :
    spawnStep ⟨false, [⟨()⟩], []⟩
      (.wsItem (some (.ok (.close (some ⟨1001, "bye"⟩))))) none
      = .panicked (.wsClosed ⟨1001, "bye"⟩) :=
  (C2_close_frame_is_fatal_panic ⟨false, [⟨()⟩], []⟩ ⟨1001, "bye"⟩ none
    (by decide)).2.2

/-- Refutation of C3 as stated: an error item produced by the socket's
inbound stream does not stop the actor — the loop iteration returns
`continued` with the state unchanged, the fault silently swallowed. -/
theorem C3_counterexample :
    spawnStep ⟨false, [], [(1, ⟨true, []⟩)]⟩ (.wsItem (some (.error ⟨7⟩))) none
      = .continued ⟨false, [], [(1, ⟨true, []⟩)]⟩ [] := by decide

/-- C3 (amended): an error item from the socket's inbound stream is matched
by `Some(Err(_)) => {}` inside `tick()` and discarded — `tick` returns
`Ok(())` with the state unchanged and the run loop continues; only stream
exhaustion (`None`) is surfaced, as `UnexpectedClose`. -/
theorem C3_read_error_swallowed (s : WsServer) (err : WsErr)
    (e : Option WsErr) (hdone : s.is_done = false) :
    s.tick (.wsItem (some (.error err))) e = ⟨s, [], [], .ok ()⟩
    ∧ spawnStep s (.wsItem (some (.error err))) e = .continued s []
    ∧ (s.tick (.wsItem none) e).result = .error .unexpectedClose := by
  refine ⟨rfl, ?_, rfl⟩
  simp [spawnStep, hdone, WsServer.tick]

/-- Witness for the amended C3 at a concrete non-done state and a concrete
read error. -/
theorem C3_witness :
    spawnStep ⟨false, [⟨()⟩], []⟩ (.wsItem (some (.error ⟨3⟩))) none
      = .continued ⟨false, [⟨()⟩], []⟩ [] :=
  (C3_read_error_swallowed ⟨false, [⟨()⟩], []⟩ ⟨3⟩ none (by decide)).2.1

/-- Iterated routing invariant: while the hardcoded slot 1 holds an open
channel, handling a sequence of raw-absent notifications appends them to
that channel in socket arrival order and leaves every other registry entry
unchanged. -/
theorem handleTexts_routes_to_slot_one (rs : List Response) :
    ∀ (s : WsServer) (op : Bool) (items : List Response),
      regLookup 1 s.subscriptions = some ⟨op, items⟩ → op = true →
      (∀ r ∈ rs, r.raw = none) →
      regLookup 1
          (handleTexts s (rs.map fun r => some (.response r))).subscriptions
        = some ⟨true, items ++ rs⟩
      ∧ ∀ k, k ≠ 1 →
          regLookup k
            (handleTexts s (rs.map fun r => some (.response r))).subscriptions
          = regLookup k s.subscriptions := by
  induction rs with
  | nil =>
    intro s op items h1 hop _
    subst hop
    exact ⟨by simpa [handleTexts] using h1, fun k _ => by simp [handleTexts]⟩
  | cons r rest ih =>
    intro s op items h1 hop hall
    subst hop
    have hr : r.raw = none := hall r (by simp)
    have hrn : (r.raw).isNone = true := by rw [hr]; rfl
    have hstep : (s.handle_text (some (.response r))).state
        = { s with
            subscriptions := regInsert 1 ⟨true, items ++ [r]⟩ s.subscriptions } := by
      simp [WsServer.handle_text, hrn, h1]
    have hfold : handleTexts s ((r :: rest).map fun r => some (.response r))
        = handleTexts (s.handle_text (some (.response r))).state
            (rest.map fun r => some (.response r)) := by
      simp [handleTexts]
    have h1' : regLookup 1 (s.handle_text (some (.response r))).state.subscriptions
        = some ⟨true, items ++ [r]⟩ := by
      rw [hstep]
      exact regLookup_regInsert_self 1 _ s.subscriptions
    obtain ⟨ha, hb⟩ := ih (s.handle_text (some (.response r))).state true
      (items ++ [r]) h1' rfl (fun x hx => hall x (by simp [hx]))
    constructor
    · rw [hfold, ha, List.append_assoc, List.singleton_append]
    · intro k hk
      rw [hfold, hb k hk, hstep]
      exact regLookup_regInsert_ne 1 k hk _ s.subscriptions

/-- Refutation of C4 as stated: with exactly one currently-registered
subscriber — registered under id 2, with an open channel — a raw-absent
notification is not delivered to it (the state is unchanged); the same
notification is delivered when the same subscriber sits under the fixed
id 1. -/
theorem C4_counterexample :
    (WsServer.handle_text ⟨false, [], [(2, ⟨true, []⟩)]⟩
        (some (.response sampleResponse))).state
      = ⟨false, [], [(2, ⟨true, []⟩)]⟩
    ∧ (WsServer.handle_text ⟨false, [], [(1, ⟨true, []⟩)]⟩
        (some (.response sampleResponse))).state.subscriptions
      = [(1, ⟨true, [sampleResponse]⟩)] := by decide

/-- C4 (amended): raw-absent notifications are routed to the subscriber
registered under the fixed, hardcoded id 1 — not to a per-notification
target id — appended in socket arrival order, while entries under every
other id are left untouched. -/
theorem C4_delivery_to_fixed_slot_one (s : WsServer) (ch : Channel)
    (rs : List Response)
    (h1 : regLookup 1 s.subscriptions = some ch) (h2 : ch.receiverOpen = true)
    (hall : ∀ r ∈ rs, r.raw = none) :
    regLookup 1
        (handleTexts s (rs.map fun r => some (.response r))).subscriptions
      = some ⟨true, ch.items ++ rs⟩
    ∧ ∀ k, k ≠ 1 →
        regLookup k
          (handleTexts s (rs.map fun r => some (.response r))).subscriptions
        = regLookup k s.subscriptions := by
  rcases ch with ⟨op, items⟩
  exact handleTexts_routes_to_slot_one rs s op items h1 h2 hall

/-- Witness for the amended C4: two concrete notifications arrive in order
and end up, in the same order, in the channel registered under id 1. -/
theorem C4_witness :
    regLookup 1 ((handleTexts ⟨false, [], [(1, ⟨true, []⟩)]⟩
      ([sampleResponse, sampleResponse2].map fun r =>
        some (.response r))).subscriptions)
      = some ⟨true, [sampleResponse, sampleResponse2]⟩ :=
  (C4_delivery_to_fixed_slot_one ⟨false, [], [(1, ⟨true, []⟩)]⟩ ⟨true, []⟩
    [sampleResponse, sampleResponse2] rfl rfl (by decide)).1
